import Mathlib

/-!
Verification of the chirpy service's authentication/session core and chirp
moderation, shallowly embedded from the Go sources.

Conventions of the embedding:
- Times and durations are integers counted in seconds (Go `time.Duration`
  values in the handlers are whole seconds; UTC calendar arithmetic on
  `AddDate(0, 0, 60)` is 60 * 86400 seconds, as UTC has no DST).
- UUIDs are opaque and modelled as `Nat`.
- The store (`database.Queries` over Postgres) is modelled as an explicit
  `DB` value threaded through the handlers; each handler returns the list
  of HTTP responses it writes, in order, together with the final store.
  (Modelling the writes as a list is what lets a handler that forgets an
  early `return` after `respondWithError` show up faithfully: it writes
  more than one response.)
- Calls into `internal/auth` that can fail for environmental reasons
  (`MakeJWT`, `MakeRefreshToken`, `GetBearerToken`) and store calls that
  can fail are injected as explicit parameters carrying the outcome of the
  call, so the handler's control flow is embedded exactly.
- Apostrophes in the Go response message literals are transliterated
  (for example the source text with Couldn and a trailing apostrophe-t is
  written "Could not") ; message identity across branches is preserved.
-/

namespace Chirpy

/-- Opaque user identifier (uuid.UUID in the source). -/
abbrev UserID := Nat

/-- Instants and durations, in seconds. -/
abbrev Time := Int

/-- Row of the `users` table: id, timestamps, email, hashed_password. -/
structure UserRow where
  id : UserID
  createdAt : Time
  updatedAt : Time
  email : String
  hashedPassword : String
  deriving Repr, DecidableEq

/-- Row of the `chirps` table (migration in the source). -/
structure ChirpRow where
  id : Nat
  createdAt : Time
  updatedAt : Time
  body : String
  userId : UserID
  deriving Repr, DecidableEq

/-- Row of the `refresh_tokens` table: token PRIMARY KEY, created_at,
updated_at, user_id, expires_at, nullable revoked_at (migration in the
source). -/
structure RefreshTokenRow where
  token : String
  createdAt : Time
  updatedAt : Time
  userId : UserID
  expiresAt : Time
  revokedAt : Option Time
  deriving Repr, DecidableEq

/-- The relational store. -/
structure DB where
  users : List UserRow
  chirps : List ChirpRow
  refreshTokens : List RefreshTokenRow
  deriving Repr, DecidableEq

/-- A signed access token as a symbolic value: `signed` carries the embedded
claims and the secret the signature binds it to (per the spec the signature
is recomputed over the payload with a symmetric secret); `garbage` is any
string that does not parse as a token, including the Go zero value `""`
left behind when `auth.MakeJWT` fails. -/
inductive TokenVal where
  | signed (subject : UserID) (issuedAt : Time) (expiresAt : Time) (secret : String)
  | garbage (raw : String)
  deriving Repr, DecidableEq

/-- The non-secret user view serialized in responses (struct `User` in the
source: id, created_at, updated_at, email — no hashed password field). -/
structure UserPublic where
  id : UserID
  createdAt : Time
  updatedAt : Time
  email : String
  deriving Repr, DecidableEq

/-- Bodies of the JSON responses the embedded handlers write. -/
inductive RespBody where
  | err (msg : String)
  | loginOk (user : UserPublic) (token : TokenVal) (refreshToken : String)
  | loginOkV1 (user : UserPublic) (token : TokenVal)
  | refreshOk (token : TokenVal)
  | noContent
  deriving Repr, DecidableEq

/-- One HTTP response: status code and JSON body. -/
structure Response where
  status : Nat
  body : RespBody
  deriving Repr, DecidableEq

/-- Failure kind of bearer-token extraction (spec section 4.2: absent header
or not in the `Bearer` shape). -/
inductive AuthErr where
  | missingToken
  deriving Repr, DecidableEq

/-- Failure kinds of access-token validation (spec section 4.2). -/
inductive JWTErr where
  | malformed
  | badSignature
  | expired
  deriving Repr, DecidableEq

/-- Internal failure kinds of refresh-token resolution (spec section 4.3). -/
inductive ResolveErr where
  | notFound
  | revoked
  | expired
  deriving Repr, DecidableEq

/-- Store query `GetUserByEmail` (SELECT the user whose email matches). -/
def getUserByEmail (db : DB) (email : String) : Option UserRow :=
  db.users.find? (fun u => u.email == email)

/-- Store query `GetChirp`: SELECT * FROM chirps WHERE id = $1 (:one). -/
def getChirp (db : DB) (id : Nat) : Option ChirpRow :=
  db.chirps.find? (fun c => c.id == id)

/-- Store statement `DeleteChirp`: DELETE FROM chirps WHERE id = $1. -/
def deleteChirpStore (db : DB) (id : Nat) : DB :=
  { db with chirps := db.chirps.filter (fun c => c.id != id) }

/-- Go `time.Now().UTC().AddDate(0, 0, 60)` relative to `now`: sixty UTC
calendar days are exactly 60 * 86400 seconds. -/
def addDays60 (t : Time) : Time := t + 60 * 86400

/-- Modelled from the spec: the store statement `CreateRefreshToken`
(`createRefreshToken(token, userID, expiresAt)` in section 6; its SQL query
file is not among the sources, only the `refresh_tokens` migration and the
caller). It inserts a row with created_at = updated_at = now and
revoked_at NULL. -/
def createRefreshToken (db : DB) (tok : String) (uid : UserID)
    (expiresAt : Time) (now : Time) : DB :=
  { db with refreshTokens :=
      ⟨tok, now, now, uid, expiresAt, none⟩ :: db.refreshTokens }

/-- Modelled from the spec: the store query `GetUserByRefreshToken`
(`findUserByValidRefreshToken` / `resolve` of spec section 4.3; its SQL
query file is not among the sources, only the caller). Absent token gives
NotFound, a set revoked_at gives Revoked, now past expires_at gives
Expired, otherwise the owning user. -/
def resolveRefreshToken (db : DB) (tok : String) (now : Time) :
    Except ResolveErr UserID :=
  match db.refreshTokens.find? (fun r => r.token == tok) with
  | none => .error .notFound
  | some r =>
    if r.revokedAt.isSome then .error .revoked
    else if r.expiresAt ≤ now then .error .expired
    else .ok r.userId

/-- Modelled from the spec: the store statement `RevokeToken`
(`revokeRefreshToken(token)`; its SQL query file is not among the sources,
only the caller). It sets revoked_at (and updated_at) to now on the row
whose primary key matches, succeeding also when no row or an
already-revoked row matches. -/
def revokeTokenStore (db : DB) (tok : String) (now : Time) : DB :=
  { db with refreshTokens := db.refreshTokens.map (fun r =>
      if r.token == tok then { r with revokedAt := some now, updatedAt := now }
      else r) }

/-- Modelled from the spec: `auth.MakeJWT` (section 4.2 `issue`): a signed
token binding the subject, issued-at = now, expiry = now + ttl, under the
given secret. -/
def makeJWT (subject : UserID) (secret : String) (ttlSeconds : Time)
    (now : Time) : TokenVal :=
  .signed subject now (now + ttlSeconds) secret

/-- Modelled from the spec: `auth.ValidateJWT` (section 4.2 `validate`):
reject garbage as Malformed, a wrong secret as BadSignature, and a token
whose embedded expiry is not after now as Expired; otherwise return the
embedded subject. -/
def validateJWT (t : TokenVal) (secret : String) (now : Time) :
    Except JWTErr UserID :=
  match t with
  | .garbage _ => .error .malformed
  | .signed sub _ exp sec =>
    if sec != secret then .error .badSignature
    else if exp ≤ now then .error .expired
    else .ok sub

/-- Projection of a stored user row to the response view `User` (source
struct with fields ID, CreatedAt, UpdatedAt, Email). -/
def publicUser (u : UserRow) : UserPublic :=
  ⟨u.id, u.createdAt, u.updatedAt, u.email⟩

/-- The `loginHandler` of the latest snapshot (refresh-token version).
Parameters inject the outcomes of the fallible collaborator calls:
`check` is `auth.CheckPasswordHash` (true means the password matches the
stored hash), `jwtFails` is whether `auth.MakeJWT` returns an error,
`refreshTokenRes` is the outcome of `auth.MakeRefreshToken`, and
`persistFails` is whether the `CreateRefreshToken` store call errors.
The source's `respondWithError` calls after `auth.MakeJWT` and
`auth.MakeRefreshToken` failures are not followed by `return`, so the
embedded control flow accumulates those error writes and continues with
the Go zero values. -/
def loginHandler (db : DB) (email password : String)
    (check : String → String → Bool) (secret : String)
    (jwtFails : Bool) (refreshTokenRes : Except String String)
    (persistFails : Bool) (now : Time) : List Response × DB :=
  match getUserByEmail db email with
  | none => ([⟨401, .err "Incorrect email or password"⟩], db)
  | some user =>
    if check password user.hashedPassword then
      let jwtWrites : List Response :=
        if jwtFails then [⟨500, .err "Could not create access token"⟩] else []
      let token : TokenVal :=
        if jwtFails then .garbage "" else makeJWT user.id secret 3600 now
      let rtWrites : List Response :=
        match refreshTokenRes with
        | .error _ => jwtWrites ++ [⟨500, .err "Could not create refresh token"⟩]
        | .ok _ => jwtWrites
      let refreshTok : String :=
        match refreshTokenRes with
        | .error _ => ""
        | .ok t => t
      if persistFails then
        (rtWrites ++ [⟨500, .err "Could not save refresh token"⟩], db)
      else
        (rtWrites ++
          [⟨200, .loginOk (publicUser user) token refreshTok⟩],
         createRefreshToken db refreshTok user.id (addDays60 now) now)
    else ([⟨401, .err "Incorrect email or password"⟩], db)

/-- The `loginHandler` of the earlier snapshot (main.go), which honors a
client-supplied `expires_in_seconds` value: the access-token TTL is the
client value when `0 < e` and `e < 3600`, and one hour otherwise. No
refresh token exists in this snapshot. -/
def loginHandlerV1 (db : DB) (email password : String)
    (expiresInSeconds : Int) (check : String → String → Bool)
    (secret : String) (jwtFails : Bool) (now : Time) : List Response × DB :=
  match getUserByEmail db email with
  | none => ([⟨401, .err "Incorrect email or password"⟩], db)
  | some user =>
    if check password user.hashedPassword then
      let expireDuration : Int :=
        if expiresInSeconds > 0 ∧ expiresInSeconds < 3600 then expiresInSeconds
        else 3600
      let writes : List Response :=
        if jwtFails then [⟨500, .err "Could not create token"⟩] else []
      let token : TokenVal :=
        if jwtFails then .garbage ""
        else makeJWT user.id secret expireDuration now
      (writes ++ [⟨200, .loginOkV1 (publicUser user) token⟩], db)
    else ([⟨401, .err "Incorrect email or password"⟩], db)

/-- The `refreshHandler`: extract the bearer refresh token (outcome injected
as `bearerRes`), resolve it against the store, and Hand back a freshly
minted access token for the resolved subject. Any resolution failure is
answered with the one 401 response. The store is never written. -/
def refreshHandler (db : DB) (bearerRes : Except AuthErr String)
    (secret : String) (jwtFails : Bool) (now : Time) : List Response × DB :=
  match bearerRes with
  | .error _ => ([⟨400, .err "Could not find token"⟩], db)
  | .ok refreshTok =>
    match resolveRefreshToken db refreshTok now with
    | .error _ => ([⟨401, .err "Could not get user for refresh token"⟩], db)
    | .ok uid =>
      let writes : List Response :=
        if jwtFails then [⟨401, .err "Could not create access token"⟩] else []
      let accessToken : TokenVal :=
        if jwtFails then .garbage "" else makeJWT uid secret 3600 now
      (writes ++ [⟨200, .refreshOk accessToken⟩], db)

/-- The `revokeHandler`: a missing or malformed bearer header is a 400; a
failing store call is a 500; otherwise revoked_at is set to now and a 204
with no content is written. -/
def revokeHandler (db : DB) (bearerRes : Except AuthErr String)
    (storeFails : Bool) (now : Time) : List Response × DB :=
  match bearerRes with
  | .error _ => ([⟨400, .err "No token provided"⟩], db)
  | .ok refreshTok =>
    if storeFails then ([⟨500, .err "Could not revoke token"⟩], db)
    else ([⟨204, .noContent⟩], revokeTokenStore db refreshTok now)

/-- The `deleteChirpHandler`: bearer extraction, JWT validation, chirp-id
parsing (outcome injected as `chirpIdRes`), chirp lookup, ownership check
(`chirp.UserID != userId` answers 403 and returns), then the delete. -/
def deleteChirpHandler (db : DB) (bearerRes : Except AuthErr TokenVal)
    (secret : String) (chirpIdRes : Except String Nat) (now : Time) :
    List Response × DB :=
  match bearerRes with
  | .error _ => ([⟨401, .err "No JWT provided"⟩], db)
  | .ok token =>
    match validateJWT token secret now with
    | .error _ => ([⟨401, .err "Could not validate JWT"⟩], db)
    | .ok userId =>
      match chirpIdRes with
      | .error _ => ([⟨400, .err "Invalid chirp ID"⟩], db)
      | .ok chirpId =>
        match getChirp db chirpId with
        | none => ([⟨404, .err "Could not get chirp"⟩], db)
        | some chirp =>
          if chirp.userId ≠ userId then
            ([⟨403, .err "You cannot delete this chirp"⟩], db)
          else
            ([⟨204, .noContent⟩], deleteChirpStore db chirpId)

/-- Go `strings.Split(body, " ")` over the characters of the body: split at
every single space, keeping empty pieces, with the empty string splitting
to one empty piece. -/
def splitOnSpace : List Char → List (List Char)
  | [] => [[]]
  | c :: cs =>
    if c = ' ' then [] :: splitOnSpace cs
    else
      match splitOnSpace cs with
      | [] => [[c]]
      | w :: ws => (c :: w) :: ws

/-- Go `strings.Join(words, " ")`: the pieces interleaved with single
spaces. -/
def joinSpace : List (List Char) → List Char
  | [] => []
  | [w] => w
  | w :: ws => w ++ ' ' :: joinSpace ws

/-- The banned-word set of `validateChirp`. -/
def badWords : List (List Char) :=
  ["kerfuffle".data, "sharbert".data, "fornax".data]

/-- The per-word step of `cleanRequestBody`: a word whose lowercasing is a
banned word is replaced by four asterisks, any other word is kept. -/
def censorWord (w : List Char) : List Char :=
  if w.map Char.toLower ∈ badWords then "****".data else w

/-- Go `cleanRequestBody(body, badWords)`: split on spaces, censor each
word, join with spaces. -/
def cleanRequestBody (body : List Char) : List Char :=
  joinSpace ((splitOnSpace body).map censorWord)

theorem splitOnSpace_ne_nil (s : List Char) : splitOnSpace s ≠ [] := by
  induction s with
  | nil => simp [splitOnSpace]
  | cons c cs ih =>
    unfold splitOnSpace
    by_cases hc : c = ' '
    · simp [hc]
    · simp only [hc, if_false]
      cases h : splitOnSpace cs with
      | nil => simp
      | cons w ws => simp

theorem space_notMem_of_mem_splitOnSpace (s : List Char) (w : List Char)
    (hw : w ∈ splitOnSpace s) : ' ' ∉ w := by
  induction s generalizing w with
  | nil =>
    simp only [splitOnSpace, List.mem_singleton] at hw
    subst hw
    simp
  | cons c cs ih =>
    unfold splitOnSpace at hw
    by_cases hc : c = ' '
    · simp only [hc, if_true, List.mem_cons] at hw
      rcases hw with h | h
      · subst h; simp
      · exact ih w h
    · simp only [hc, if_false] at hw
      cases h : splitOnSpace cs with
      | nil => exact absurd h (splitOnSpace_ne_nil cs)
      | cons v vs =>
        rw [h] at hw
        rcases List.mem_cons.mp hw with h1 | h1
        · subst h1
          intro hmem
          rcases List.mem_cons.mp hmem with h2 | h2
          · exact hc h2.symm
          · exact ih v (h ▸ List.mem_cons_self v vs) h2
        · exact ih w (h ▸ List.mem_cons_of_mem v h1)

theorem splitOnSpace_of_no_space (w : List Char) (hw : ' ' ∉ w) :
    splitOnSpace w = [w] := by
  induction w with
  | nil => rfl
  | cons c cs ih =>
    have hc : c ≠ ' ' := fun h => hw (h ▸ List.mem_cons_self c cs)
    have hcs : ' ' ∉ cs := fun h => hw (List.mem_cons_of_mem c h)
    unfold splitOnSpace
    simp only [hc, if_false, ih hcs]

theorem splitOnSpace_append_space (w rest : List Char) (hw : ' ' ∉ w) :
    splitOnSpace (w ++ ' ' :: rest) = w :: splitOnSpace rest := by
  induction w with
  | nil => simp [splitOnSpace]
  | cons c cs ih =>
    have hc : c ≠ ' ' := fun h => hw (h ▸ List.mem_cons_self c cs)
    have hcs : ' ' ∉ cs := fun h => hw (List.mem_cons_of_mem c h)
    simp only [List.cons_append]
    unfold splitOnSpace
    simp only [hc, if_false, ih hcs]
    congr 1
    cases rest with
    | nil => rfl
    | cons r rs => rfl

theorem splitOnSpace_joinSpace (l : List (List Char)) (hne : l ≠ [])
    (hl : ∀ w ∈ l, ' ' ∉ w) : splitOnSpace (joinSpace l) = l := by
  induction l with
  | nil => exact absurd rfl hne
  | cons w ws ih =>
    cases ws with
    | nil =>
      simp only [joinSpace]
      exact splitOnSpace_of_no_space w (hl w (List.mem_cons_self w []))
    | cons v vs =>
      have hjoin : joinSpace (w :: v :: vs) = w ++ ' ' :: joinSpace (v :: vs) := rfl
      rw [hjoin,
        splitOnSpace_append_space w (joinSpace (v :: vs))
          (hl w (List.mem_cons_self w (v :: vs))),
        ih (by simp) (fun u hu => hl u (List.mem_cons_of_mem w hu))]

theorem censorWord_no_space (w : List Char) (hw : ' ' ∉ w) :
    ' ' ∉ censorWord w := by
  unfold censorWord
  by_cases h : w.map Char.toLower ∈ badWords
  · simp only [h, if_true]
    decide
  · simpa [h] using hw

theorem censorWord_censorWord (w : List Char) :
    censorWord (censorWord w) = censorWord w := by
  by_cases h : w.map Char.toLower ∈ badWords
  · have h1 : censorWord w = "****".data := by simp [censorWord, h]
    rw [h1]
    decide
  · simp [censorWord, h]

theorem splitOnSpace_cleanRequestBody (body : List Char) :
    splitOnSpace (cleanRequestBody body)
      = (splitOnSpace body).map censorWord := by
  unfold cleanRequestBody
  refine splitOnSpace_joinSpace _ ?_ ?_
  · simp [splitOnSpace_ne_nil body]
  · intro w hw
    rcases List.mem_map.mp hw with ⟨v, hv, rfl⟩
    exact censorWord_no_space v (space_notMem_of_mem_splitOnSpace body v hv)

/-- Claim C1: for every chirp-deletion request carrying a valid access
token, deletion happens only when the token's subject equals the chirp's
owning user: on a mismatch the handler answers 403 Forbidden and the store
is left unchanged; on a match it deletes the chirp. -/
theorem claim_c1_delete_requires_ownership (db : DB) (tok : TokenVal)
    (secret : String) (uid : UserID) (cid : Nat) (chirp : ChirpRow)
    (now : Time)
    (hval : validateJWT tok secret now = .ok uid)
    (hchirp : getChirp db cid = some chirp) :
    (chirp.userId ≠ uid →
      deleteChirpHandler db (.ok tok) secret (.ok cid) now
        = ([⟨403, .err "You cannot delete this chirp"⟩], db)) ∧
    (chirp.userId = uid →
      deleteChirpHandler db (.ok tok) secret (.ok cid) now
        = ([⟨204, .noContent⟩], deleteChirpStore db cid)) := by
  constructor <;> intro h <;> simp [deleteChirpHandler, hval, hchirp, h]

/-- Witness for C1: a store holding one chirp owned by user 1; a valid
token for user 2 attempts the delete, gets 403, and the store is
unchanged. -/
theorem claim_c1_delete_requires_ownership_witness :
    deleteChirpHandler ⟨[], [⟨7, 0, 0, "hi", 1⟩], []⟩
        (.ok (.signed 2 0 3600 "sec")) "sec" (.ok 7) 10
      = ([⟨403, .err "You cannot delete this chirp"⟩],
         ⟨[], [⟨7, 0, 0, "hi", 1⟩], []⟩) :=
  (claim_c1_delete_requires_ownership ⟨[], [⟨7, 0, 0, "hi", 1⟩], []⟩
      (.signed 2 0 3600 "sec") "sec" 2 7 ⟨7, 0, 0, "hi", 1⟩ 10
      rfl rfl).1 (by decide)

/-- Claim C2: a login with an email matching no stored user and a login
with a stored user's email but a non-matching password produce the
identical outcome — the same 401 response with the same message, with the
store untouched — so the two causes are indistinguishable to the caller. -/
theorem claim_c2_login_failures_indistinguishable (db : DB)
    (e1 p1 e2 p2 : String) (u : UserRow) (check : String → String → Bool)
    (secret : String) (jf : Bool) (rt : Except String String) (pf : Bool)
    (now : Time)
    (h1 : getUserByEmail db e1 = none)
    (h2 : getUserByEmail db e2 = some u)
    (h3 : check p2 u.hashedPassword = false) :
    loginHandler db e1 p1 check secret jf rt pf now
      = ([⟨401, .err "Incorrect email or password"⟩], db) ∧
    loginHandler db e2 p2 check secret jf rt pf now
      = loginHandler db e1 p1 check secret jf rt pf now := by
  have ha : loginHandler db e1 p1 check secret jf rt pf now
      = ([⟨401, .err "Incorrect email or password"⟩], db) := by
    simp [loginHandler, h1]
  have hb : loginHandler db e2 p2 check secret jf rt pf now
      = ([⟨401, .err "Incorrect email or password"⟩], db) := by
    simp [loginHandler, h2, h3]
  exact ⟨ha, hb.trans ha.symm⟩

/-- Witness for C2: one stored user; login with the wrong password and
login with an unknown email give the same outcome. -/
theorem claim_c2_login_failures_indistinguishable_witness :
    loginHandler ⟨[⟨1, 0, 0, "a@x", "hash"⟩], [], []⟩ "a@x" "wrong"
        (fun p h => p == h) "sec" false (.ok "r") false 0
      = loginHandler ⟨[⟨1, 0, 0, "a@x", "hash"⟩], [], []⟩ "b@x" "pw"
        (fun p h => p == h) "sec" false (.ok "r") false 0 :=
  (claim_c2_login_failures_indistinguishable
      ⟨[⟨1, 0, 0, "a@x", "hash"⟩], [], []⟩ "b@x" "pw" "a@x" "wrong"
      ⟨1, 0, 0, "a@x", "hash"⟩ (fun p h => p == h) "sec" false (.ok "r")
      false 0 rfl rfl rfl).2

/-- Claim C3: whenever the presented refresh token fails to resolve — for
any of the three internal reasons (absent, revoked, expired) — the refresh
handler answers with the single collapsed 401 outcome, identical across
the reasons, so the caller learns nothing about which applied. -/
theorem claim_c3_refresh_failures_collapsed (db : DB) (t : String)
    (e : ResolveErr) (secret : String) (jf : Bool) (now : Time)
    (h : resolveRefreshToken db t now = .error e) :
    refreshHandler db (.ok t) secret jf now
      = ([⟨401, .err "Could not get user for refresh token"⟩], db) := by
  simp [refreshHandler, h]

/-- Witness for C3: the collapsed 401 at all three failure kinds — a store
without the token (NotFound), with it revoked (Revoked), and with it past
expiry (Expired). -/
theorem claim_c3_refresh_failures_collapsed_witness :
    refreshHandler ⟨[], [], []⟩ (.ok "t") "sec" false 0
      = ([⟨401, .err "Could not get user for refresh token"⟩],
         ⟨[], [], []⟩) ∧
    refreshHandler ⟨[], [], [⟨"t", 0, 0, 1, 100, some 5⟩]⟩ (.ok "t") "sec"
        false 0
      = ([⟨401, .err "Could not get user for refresh token"⟩],
         ⟨[], [], [⟨"t", 0, 0, 1, 100, some 5⟩]⟩) ∧
    refreshHandler ⟨[], [], [⟨"t", 0, 0, 1, 100, none⟩]⟩ (.ok "t") "sec"
        false 200
      = ([⟨401, .err "Could not get user for refresh token"⟩],
         ⟨[], [], [⟨"t", 0, 0, 1, 100, none⟩]⟩) :=
  ⟨claim_c3_refresh_failures_collapsed ⟨[], [], []⟩ "t" .notFound "sec"
      false 0 rfl,
   claim_c3_refresh_failures_collapsed
      ⟨[], [], [⟨"t", 0, 0, 1, 100, some 5⟩]⟩ "t" .revoked "sec" false 0 rfl,
   claim_c3_refresh_failures_collapsed
      ⟨[], [], [⟨"t", 0, 0, 1, 100, none⟩]⟩ "t" .expired "sec" false 200 rfl⟩

/-- Claim C4 fails on the code: in `loginHandler` the `respondWithError`
calls after `auth.MakeJWT` and `auth.MakeRefreshToken` failures are not
followed by `return`, so when access-token creation fails for a stored
user with the correct password the handler writes the 500 error response
AND continues: it persists a refresh token and writes the 200 success
payload carrying that refresh-token material. Two responses are produced
and token material is returned — not the single typed failure the claim
requires. -/
theorem claim_c4_partial_success_bug :
    loginHandler ⟨[⟨1, 0, 0, "a@x", "hash"⟩], [], []⟩ "a@x" "pw"
        (fun p _ => p == "pw") "sec" true (.ok "rtok") false 0
      = ([⟨500, .err "Could not create access token"⟩,
          ⟨200, .loginOk ⟨1, 0, 0, "a@x"⟩ (.garbage "") "rtok"⟩],
         ⟨[⟨1, 0, 0, "a@x", "hash"⟩], [],
          [⟨"rtok", 0, 0, 1, 5184000, none⟩]⟩) := rfl

/-- Claim C5: in the snapshot honoring `expires_in_seconds`, the access
token issued by a successful login expires `e` seconds after now whenever
the client value `e` lies in (0, 3600], and one hour (3600 seconds) after
now otherwise (the code tests `e < 3600` strictly, but at `e = 3600` the
default equals the client value, so the claim's case split holds). -/
theorem claim_c5_login_ttl (db : DB) (email password : String) (e : Int)
    (u : UserRow) (check : String → String → Bool) (secret : String)
    (now : Time)
    (h1 : getUserByEmail db email = some u)
    (h2 : check password u.hashedPassword = true) :
    (0 < e ∧ e ≤ 3600 →
      loginHandlerV1 db email password e check secret false now
        = ([⟨200, .loginOkV1 (publicUser u)
              (.signed u.id now (now + e) secret)⟩], db)) ∧
    ((e ≤ 0 ∨ 3600 < e) →
      loginHandlerV1 db email password e check secret false now
        = ([⟨200, .loginOkV1 (publicUser u)
              (.signed u.id now (now + 3600) secret)⟩], db)) := by
  constructor
  · rintro ⟨he1, he2⟩
    rcases lt_or_eq_of_le he2 with hlt | heq
    · have hcond : e > 0 ∧ e < 3600 := ⟨he1, hlt⟩
      simp [loginHandlerV1, h1, h2, makeJWT, hcond]
    · subst heq
      have hcond : ¬((3600 : Int) > 0 ∧ (3600 : Int) < 3600) := by omega
      simp [loginHandlerV1, h1, h2, makeJWT, hcond]
  · intro he
    have hcond : ¬(e > 0 ∧ e < 3600) := by omega
    simp [loginHandlerV1, h1, h2, makeJWT, hcond]

/-- Witness for C5, exercising the boundary value 3600: the issued token
expires exactly 3600 seconds after now, matching the client value. -/
theorem claim_c5_login_ttl_witness :
    loginHandlerV1 ⟨[⟨1, 0, 0, "a@x", "hash"⟩], [], []⟩ "a@x" "pw" 3600
        (fun p _ => p == "pw") "sec" false 0
      = ([⟨200, .loginOkV1 ⟨1, 0, 0, "a@x"⟩ (.signed 1 0 3600 "sec")⟩],
         ⟨[⟨1, 0, 0, "a@x", "hash"⟩], [], []⟩) :=
  (claim_c5_login_ttl ⟨[⟨1, 0, 0, "a@x", "hash"⟩], [], []⟩ "a@x" "pw" 3600
      ⟨1, 0, 0, "a@x", "hash"⟩ (fun p _ => p == "pw") "sec" 0 rfl rfl).1
    (by decide)

/-- Claim C6: a successful login answers exactly one 200 response whose
payload holds the access token, the refresh token, and only the non-secret
user fields (id, created_at, updated_at, email); the public user view is
determined by those four fields alone, so the stored credential hash can
never appear in it. -/
theorem claim_c6_login_payload_non_secret (db : DB) (email password : String)
    (u : UserRow) (rtok : String) (check : String → String → Bool)
    (secret : String) (now : Time)
    (h1 : getUserByEmail db email = some u)
    (h2 : check password u.hashedPassword = true) :
    loginHandler db email password check secret false (.ok rtok) false now
      = ([⟨200, .loginOk ⟨u.id, u.createdAt, u.updatedAt, u.email⟩
            (makeJWT u.id secret 3600 now) rtok⟩],
         createRefreshToken db rtok u.id (addDays60 now) now) ∧
    ∀ u2 : UserRow, u2.id = u.id → u2.createdAt = u.createdAt →
      u2.updatedAt = u.updatedAt → u2.email = u.email →
      publicUser u2 = publicUser u := by
  constructor
  · simp [loginHandler, h1, h2, publicUser]
  · intro u2 hid hc hu he
    simp [publicUser, hid, hc, hu, he]

/-- Witness for C6: a concrete successful login produces the 200 payload
built only from the public user fields and the two tokens. -/
theorem claim_c6_login_payload_non_secret_witness :
    loginHandler ⟨[⟨1, 2, 3, "a@x", "hash"⟩], [], []⟩ "a@x" "pw"
        (fun p _ => p == "pw") "sec" false (.ok "rtok") false 10
      = ([⟨200, .loginOk ⟨1, 2, 3, "a@x"⟩ (makeJWT 1 "sec" 3600 10) "rtok"⟩],
         createRefreshToken ⟨[⟨1, 2, 3, "a@x", "hash"⟩], [], []⟩ "rtok" 1
           (addDays60 10) 10) :=
  (claim_c6_login_payload_non_secret ⟨[⟨1, 2, 3, "a@x", "hash"⟩], [], []⟩
      "a@x" "pw" ⟨1, 2, 3, "a@x", "hash"⟩ "rtok" (fun p _ => p == "pw")
      "sec" 10 rfl rfl).1

/-- Claim C7: the refresh token persisted by a successful login is stored
with created_at = now, expiry exactly now plus the fixed 60-day window
(60 * 86400 seconds), and a null revoked_at. -/
theorem claim_c7_refresh_token_row (db : DB) (email password : String)
    (u : UserRow) (rtok : String) (check : String → String → Bool)
    (secret : String) (now : Time)
    (h1 : getUserByEmail db email = some u)
    (h2 : check password u.hashedPassword = true) :
    (loginHandler db email password check secret false (.ok rtok)
        false now).2.refreshTokens
      = ⟨rtok, now, now, u.id, now + 60 * 86400, none⟩
          :: db.refreshTokens := by
  simp [loginHandler, h1, h2, createRefreshToken, addDays60]

/-- Witness for C7: the concrete row stored by a login at instant 10
expires at 10 + 5184000 and carries no revoked_at. -/
theorem claim_c7_refresh_token_row_witness :
    (loginHandler ⟨[⟨1, 2, 3, "a@x", "hash"⟩], [], []⟩ "a@x" "pw"
        (fun p _ => p == "pw") "sec" false (.ok "rtok")
        false 10).2.refreshTokens
      = [⟨"rtok", 10, 10, 1, 10 + 60 * 86400, none⟩] :=
  claim_c7_refresh_token_row ⟨[⟨1, 2, 3, "a@x", "hash"⟩], [], []⟩ "a@x"
    "pw" ⟨1, 2, 3, "a@x", "hash"⟩ "rtok" (fun p _ => p == "pw") "sec" 10
    rfl rfl

/-- Claim C8: the refresh handler never writes the store — the final store
equals the initial one whatever the outcome of the access-token mint — and
on success it answers one 200 response carrying a freshly minted access
token for the subject the refresh token resolved to; in particular the
stored refresh-token row is neither rotated nor extended. -/
theorem claim_c8_refresh_frame (db : DB) (t : String) (uid : UserID)
    (secret : String) (jf : Bool) (now : Time)
    (h : resolveRefreshToken db t now = .ok uid) :
    (refreshHandler db (.ok t) secret jf now).2 = db ∧
    refreshHandler db (.ok t) secret false now
      = ([⟨200, .refreshOk (makeJWT uid secret 3600 now)⟩], db) := by
  constructor
  · simp [refreshHandler, h]
  · simp [refreshHandler, h]

/-- Witness for C8: a store holding one live refresh token; the refresh
answers a fresh access token for its owner and the store is unchanged. -/
theorem claim_c8_refresh_frame_witness :
    refreshHandler ⟨[], [], [⟨"t", 0, 0, 1, 100, none⟩]⟩ (.ok "t") "sec"
        false 0
      = ([⟨200, .refreshOk (makeJWT 1 "sec" 3600 0)⟩],
         ⟨[], [], [⟨"t", 0, 0, 1, 100, none⟩]⟩) :=
  (claim_c8_refresh_frame ⟨[], [], [⟨"t", 0, 0, 1, 100, none⟩]⟩ "t" 1
      "sec" false 0 rfl).2

/-- Claim C9: a revoke request with a missing or malformed bearer header
fails with 400 BadRequest and leaves the store unchanged; otherwise the
handler sets revoked_at (and updated_at) to now on the matching row and
answers 204 with no content — including when the row was already revoked
(idempotent success). -/
theorem claim_c9_revoke_behavior (db : DB) (e2 : AuthErr) (t : String)
    (now : Time) :
    revokeHandler db (.error e2) false now
      = ([⟨400, .err "No token provided"⟩], db) ∧
    revokeHandler db (.ok t) false now
      = ([⟨204, .noContent⟩], revokeTokenStore db t now) ∧
    (∀ r ∈ (revokeTokenStore db t now).refreshTokens,
      r.token = t → r.revokedAt = some now) ∧
    revokeHandler (revokeTokenStore db t now) (.ok t) false now
      = ([⟨204, .noContent⟩],
         revokeTokenStore (revokeTokenStore db t now) t now) := by
  refine ⟨by simp [revokeHandler], by simp [revokeHandler], ?_,
    by simp [revokeHandler]⟩
  intro r hr hrt
  simp only [revokeTokenStore, List.mem_map] at hr
  rcases hr with ⟨r0, _hr0, rfl⟩
  by_cases hc : r0.token = t
  · simp [hc]
  · have hb : (r0.token == t) = false := beq_eq_false_iff_ne.mpr hc
    rw [hb] at hrt ⊢
    simp only [Bool.false_eq_true, if_false] at hrt
    exact absurd hrt hc

/-- Witness for C9: a store holding one live refresh token; a missing
bearer gives 400 and no change, a present bearer gives 204 with revoked_at
set, and revoking again still gives 204. -/
theorem claim_c9_revoke_behavior_witness :
    revokeHandler ⟨[], [], [⟨"t", 0, 0, 1, 100, none⟩]⟩ (.error .missingToken)
        false 5
      = ([⟨400, .err "No token provided"⟩],
         ⟨[], [], [⟨"t", 0, 0, 1, 100, none⟩]⟩) ∧
    revokeHandler ⟨[], [], [⟨"t", 0, 0, 1, 100, none⟩]⟩ (.ok "t") false 5
      = ([⟨204, .noContent⟩],
         revokeTokenStore ⟨[], [], [⟨"t", 0, 0, 1, 100, none⟩]⟩ "t" 5) :=
  ⟨(claim_c9_revoke_behavior ⟨[], [], [⟨"t", 0, 0, 1, 100, none⟩]⟩
      .missingToken "t" 5).1,
   (claim_c9_revoke_behavior ⟨[], [], [⟨"t", 0, 0, 1, 100, none⟩]⟩
      .missingToken "t" 5).2.1⟩

/-- Claim C10: the chirp body word-censoring function is idempotent — for
every body, applying `cleanRequestBody` twice yields the same result as
applying it once (the replacement four-asterisk word is never itself a
banned word) — and the cleaned output has the same number of
space-separated words as the input. -/
theorem claim_c10_clean_idempotent_and_word_count (body : List Char) :
    cleanRequestBody (cleanRequestBody body) = cleanRequestBody body ∧
    (splitOnSpace (cleanRequestBody body)).length
      = (splitOnSpace body).length := by
  constructor
  · show joinSpace ((splitOnSpace (cleanRequestBody body)).map censorWord) = _
    rw [splitOnSpace_cleanRequestBody, List.map_map]
    have : censorWord ∘ censorWord = censorWord := by
      funext w
      exact censorWord_censorWord w
    rw [this]
    rfl
  · rw [splitOnSpace_cleanRequestBody, List.length_map]

end Chirpy
